import Mathlib

/-
Verification of the speaches-ui gateway (src/main.go): a shallow embedding of
the text-to-speech and speech-to-text request pipelines — input validation,
the voice/model normalizer, the backend HTTP call, missing-model detection,
and the install-and-retry orchestration — together with theorems settling the
specification claims about them.

The backend inference server is modelled as an oracle giving the outcome of
each outbound HTTP attempt (first call, install call, retried call), and each
handler is a pure function from the request and that oracle to the list of
backend calls it issues plus the response delivered to the caller.
-/

namespace SpeachesUI

/-- Character-list matching at the front: true when the first list occurs at
the start of the second.  Building block for the substring test below. -/
def leadMatch : List Char → List Char → Bool
  | [], _ => true
  | _ :: _, [] => false
  | p :: ps, c :: cs => p == c && leadMatch ps cs

/-- Substring occurrence on character lists: mirrors Go bytes.Contains. -/
def containsSub (pat : List Char) : List Char → Bool
  | [] => leadMatch pat []
  | c :: rest => leadMatch pat (c :: rest) || containsSub pat rest

/-- bytes.Contains on strings: pattern occurs somewhere in s. -/
def strContainsSub (s pat : String) : Bool :=
  containsSub pat.data s.data

/-- The kokoro voice allow-list, from the kokoroVoices map in handleTTS
(src/main.go lines 688-721). -/
def kokoroVoices : List String :=
  ["af_nova", "af_sarah", "af_bella", "af_heart", "af_aoede", "af_jessica",
   "af_kore", "af_nicole", "af_river", "af_sky", "af_alloy",
   "am_adam", "am_echo", "am_liam", "am_onyx", "am_michael", "am_eric",
   "am_fenrir", "am_puck", "am_santa",
   "bf_alice", "bf_emma", "bf_isabella", "bf_lily",
   "bm_fable", "bm_george", "bm_daniel", "bm_lewis"]

/-- The piper voice allow-list, from the piperVoices map in handleTTS
(src/main.go lines 723-764). -/
def piperVoices : List String :=
  ["en_US-ryan-high", "en_US-ryan-low", "en_US-ryan-medium",
   "en_US-amy-low", "en_US-amy-medium", "en_US-hfc_female-medium",
   "en_US-kathleen-low", "en_US-kristin-medium", "en_US-ljspeech-high",
   "en_US-ljspeech-medium",
   "en_US-hfc_male-medium", "en_US-lessac-high", "en_US-lessac-low",
   "en_US-lessac-medium", "en_US-danny-low", "en_US-joe-medium",
   "en_US-john-medium", "en_US-bryce-medium", "en_US-kusal-medium",
   "en_US-norman-medium",
   "en_US-libritts-high", "en_US-libritts_r-medium", "en_US-arctic-medium",
   "en_US-l2arctic-medium",
   "en_GB-alan-low", "en_GB-alan-medium",
   "en_GB-southern_english_female-low", "en_GB-alba-medium",
   "en_GB-aru-medium", "en_GB-cori-high", "en_GB-cori-medium",
   "en_GB-jenny_dioco-medium", "en_GB-northern_english_male-medium",
   "en_GB-semaine-medium", "en_GB-vctk-medium"]

/-- Result of the voice/model normalization step of handleTTS: the (possibly
reassigned) model variable, the resolved voice, and the canonical backend
model identifier actualModel. -/
structure NormResult where
  model : String
  voice : String
  actualModel : String
deriving DecidableEq

/-- The voice/model normalizer, embedding src/main.go lines 679-784: default
the model to tts-1 when empty; for tts-1 validate the voice against the
kokoro allow-list falling back to af_nova; for tts-1-piper validate against
the piper allow-list falling back to en_US-ryan-medium and compose the
canonical id speaches-ai/piper-voice; for any other model name reassign
model to tts-1 and force voice af_nova. -/
def normalizeTTS (reqModel reqVoice : String) : NormResult :=
  let model := if reqModel = "" then "tts-1" else reqModel
  let voice := reqVoice
  if model = "tts-1" then
    { model := model,
      voice := if kokoroVoices.contains voice then voice else "af_nova",
      actualModel := "tts-1" }
  else if model = "tts-1-piper" then
    let v := if piperVoices.contains voice then voice else "en_US-ryan-medium"
    { model := model, voice := v, actualModel := "speaches-ai/piper-" ++ v }
  else
    { model := "tts-1", voice := "af_nova", actualModel := "tts-1" }

/-- The missing-model failure signature test applied to a non-success backend
body (src/main.go lines 821 and 1063): the body contains the substring
"is not installed locally", or contains both "Model" and "not found". -/
def isMissingModelSig (body : String) : Bool :=
  strContainsSub body "is not installed locally" ||
    (strContainsSub body "Model" && strContainsSub body "not found")

/-- Outcome of one outbound HTTP attempt: a network-level error (Go http call
returning err ne nil) or a response with a status code and a body. -/
inductive HttpResult where
  | netErr
  | response (status : Nat) (body : String)
deriving DecidableEq

/-- The JSON payload posted to the backend speech endpoint
(src/main.go lines 787-791). -/
structure TTSPayload where
  model : String
  input : String
  voice : String
deriving DecidableEq

/-- Abstract content of the multipart body posted to the transcription
endpoint (src/main.go lines 1008-1031): the file part plus the ordered
name/value fields.  The random multipart boundary is not modelled. -/
structure MultipartBody where
  fileFieldName : String
  filename : String
  fileData : String
  fields : List (String × String)
deriving DecidableEq

/-- One outbound backend call issued by a handler. -/
inductive BackendCall where
  | speechPost (url : String) (payload : TTSPayload)
  | installPost (url : String)
  | transcribePost (url : String) (body : MultipartBody)
deriving DecidableEq

/-- A decoded synthesis request as bound by handleTTS. -/
structure TTSRequest where
  text : String
  voice : String
  model : String
deriving DecidableEq

/-- Response delivered to the caller by handleTTS: streamed audio bytes, or a
JSON error object with an HTTP status and message. -/
inductive TTSResult where
  | audioStream (bytes : String)
  | jsonError (status : Nat) (errMsg : String)
deriving DecidableEq

/-- The observable effect of one handleTTS invocation: the ordered list of
backend calls issued, and the response delivered to the caller. -/
structure TTSOutcome where
  calls : List BackendCall
  result : TTSResult
deriving DecidableEq

/-- Backend oracle for one handleTTS invocation: the outcome of the first
speech POST, of the install POST (if issued), and of the retried speech POST
(if issued). -/
structure TTSBackend where
  first : HttpResult
  install : HttpResult
  retry : HttpResult
deriving DecidableEq

/-- The synthesis gateway, embedding handleTTS (src/main.go lines 661-859).
Gin request binding with the required tag also rejects an absent text field
with status 400 and no backend call, matching the empty-text branch here;
json.Marshal of the string payload cannot fail and is modelled as pure. -/
def handleTTSGateway (base : String) (b : TTSBackend) (req : TTSRequest) :
    TTSOutcome :=
  if req.text = "" then
    ⟨[], .jsonError 400 "text cannot be empty"⟩
  else
    let n := normalizeTTS req.model req.voice
    let payload : TTSPayload := ⟨n.actualModel, req.text, n.voice⟩
    let speechURL := base ++ "/v1/audio/speech"
    match b.first with
    | .netErr =>
        ⟨[.speechPost speechURL payload],
         .jsonError 503
           "speaches.ai server is not available. Make sure it\x27s running on localhost:8000"⟩
    | .response status body =>
        if status = 200 then
          ⟨[.speechPost speechURL payload], .audioStream body⟩
        else
          let origErr :=
            TTSResult.jsonError status ("speaches.ai server error: " ++ body)
          if n.model = "tts-1-piper" ∧ isMissingModelSig body = true then
            let downloadURL :=
              base ++ "/v1/models/" ++ ("speaches-ai%2Fpiper-" ++ n.voice)
            match b.install with
            | .netErr =>
                ⟨[.speechPost speechURL payload, .installPost downloadURL],
                 origErr⟩
            | .response _ _ =>
                match b.retry with
                | .netErr =>
                    ⟨[.speechPost speechURL payload,
                      .installPost downloadURL,
                      .speechPost speechURL payload],
                     .jsonError 503
                       "Failed to generate speech after downloading model"⟩
                | .response s2 body2 =>
                    if s2 = 200 then
                      ⟨[.speechPost speechURL payload,
                        .installPost downloadURL,
                        .speechPost speechURL payload],
                       .audioStream body2⟩
                    else
                      ⟨[.speechPost speechURL payload,
                        .installPost downloadURL,
                        .speechPost speechURL payload],
                       origErr⟩
          else
            ⟨[.speechPost speechURL payload], origErr⟩

/-- The uploaded audio file part of a transcription form. -/
structure STTFile where
  filename : String
  data : String
deriving DecidableEq

/-- A decoded transcription form as read by handleSTT: optional language and
quality-tier fields (the form field for the tier is named model), and the
optional audio file part. -/
structure STTForm where
  language : Option String
  model : Option String
  audio : Option STTFile
deriving DecidableEq

/-- Response delivered to the caller by handleSTT: a JSON object carrying the
transcript text, or a JSON error object. -/
inductive STTResult where
  | jsonText (status : Nat) (text : String)
  | jsonError (status : Nat) (errMsg : String)
deriving DecidableEq

/-- The observable effect of one handleSTT invocation. -/
structure STTOutcome where
  calls : List BackendCall
  result : STTResult
deriving DecidableEq

/-- Backend oracle for one handleSTT invocation. -/
structure STTBackend where
  first : HttpResult
  install : HttpResult
  retry : HttpResult
deriving DecidableEq

/-- The language allow-list of handleSTT (src/main.go lines 975-978). -/
def validLanguages : List String :=
  ["en", "es", "fr", "de", "it", "pt", "ja", "ko", "zh"]

/-- The quality-tier allow-list of handleSTT (src/main.go lines 984-986). -/
def validModels : List String :=
  ["fast", "standard", "accurate"]

/-- Language validation of handleSTT (src/main.go lines 979-981). -/
def sttLanguage (l : String) : String :=
  if validLanguages.contains l then l else "en"

/-- Quality-tier validation of handleSTT (src/main.go lines 987-989). -/
def sttModelTier (m : String) : String :=
  if validModels.contains m then m else "standard"

/-- The multipart body built by handleSTT for the transcription POST
(src/main.go lines 1008-1031 and, identically reconstructed for the retry,
lines 1072-1080): file part under field name file, then the language field,
then the model field fixed to whisper-1. -/
def mkTranscribeBody (filename data language : String) : MultipartBody :=
  { fileFieldName := "file", filename := filename, fileData := data,
    fields := [("language", language), ("model", "whisper-1")] }

/-- The transcription gateway, embedding handleSTT (src/main.go lines
961-1125).  The JSON decoding of a success body into the struct with the
text field is modelled by the decode parameter (none is a decode error);
local file open/read and multipart writer operations on the buffered bytes
are modelled as pure.  On the retry success path the code ignores the decode
error, so the zero value empty string is returned when decode fails there. -/
def handleSTTGateway (decode : String → Option String) (base : String)
    (b : STTBackend) (form : STTForm) : STTOutcome :=
  let language0 := form.language.getD "en"
  let tier0 := form.model.getD "standard"
  match form.audio with
  | none => ⟨[], .jsonError 400 "audio file is required"⟩
  | some file =>
      let language := sttLanguage language0
      let _tier := sttModelTier tier0
      let body := mkTranscribeBody file.filename file.data language
      let url := base ++ "/v1/audio/transcriptions"
      match b.first with
      | .netErr =>
          ⟨[.transcribePost url body],
           .jsonError 503
             "speaches.ai server is not available. Make sure it\x27s running on localhost:8000"⟩
      | .response status rbody =>
          if status = 200 then
            match decode rbody with
            | some t => ⟨[.transcribePost url body], .jsonText 200 t⟩
            | none =>
                ⟨[.transcribePost url body],
                 .jsonError 500 "failed to decode transcription response"⟩
          else
            let origErr :=
              STTResult.jsonError status ("speaches.ai server error: " ++ rbody)
            if isMissingModelSig rbody = true then
              let downloadURL := base ++ "/v1/models/whisper-1"
              match b.install with
              | .netErr => ⟨[.transcribePost url body, .installPost downloadURL], origErr⟩
              | .response _ _ =>
                  let body2 := mkTranscribeBody file.filename file.data language
                  match b.retry with
                  | .netErr =>
                      ⟨[.transcribePost url body, .installPost downloadURL,
                        .transcribePost url body2],
                       origErr⟩
                  | .response s2 rbody2 =>
                      if s2 = 200 then
                        ⟨[.transcribePost url body, .installPost downloadURL,
                          .transcribePost url body2],
                         .jsonText 200 ((decode rbody2).getD "")⟩
                      else
                        ⟨[.transcribePost url body, .installPost downloadURL,
                          .transcribePost url body2],
                         origErr⟩
            else
              ⟨[.transcribePost url body], origErr⟩

/-- Is this call an install POST. -/
def isInstall : BackendCall → Bool
  | .installPost _ => true
  | _ => false

/-- Is this call a speech POST. -/
def isSpeech : BackendCall → Bool
  | .speechPost _ _ => true
  | _ => false

/-- Is this call a transcription POST. -/
def isTranscribe : BackendCall → Bool
  | .transcribePost _ _ => true
  | _ => false

/-- Number of install POSTs in a call trace. -/
def installCount (cs : List BackendCall) : Nat :=
  (cs.filter isInstall).length

/-- Number of speech POSTs in a call trace. -/
def speechCount (cs : List BackendCall) : Nat :=
  (cs.filter isSpeech).length

/-- Number of transcription POSTs in a call trace. -/
def transcribeCount (cs : List BackendCall) : Nat :=
  (cs.filter isTranscribe).length

/-- The URLs of the install POSTs in a call trace, in order. -/
def installURLs (cs : List BackendCall) : List String :=
  cs.filterMap fun c =>
    match c with
    | .installPost u => some u
    | _ => none

/-- The URL/payload pairs of the speech POSTs in a call trace, in order. -/
def speechPostList (cs : List BackendCall) : List (String × TTSPayload) :=
  cs.filterMap fun c =>
    match c with
    | .speechPost u p => some (u, p)
    | _ => none

/-- The speech URL used by handleTTS. -/
def speechURL (base : String) : String := base ++ "/v1/audio/speech"

/-- The payload handleTTS sends for a given request. -/
def ttsPayload (req : TTSRequest) : TTSPayload :=
  ⟨(normalizeTTS req.model req.voice).actualModel, req.text,
   (normalizeTTS req.model req.voice).voice⟩

/-- The install URL handleTTS uses for a piper voice. -/
def piperInstallURL (base voice : String) : String :=
  base ++ "/v1/models/" ++ ("speaches-ai%2Fpiper-" ++ voice)

/-- The transcription URL used by handleSTT. -/
def transcribeURL (base : String) : String := base ++ "/v1/audio/transcriptions"

/-- The verbatim error message handleTTS and handleSTT build from a backend
error body. -/
def backendErrMsg (body : String) : String :=
  "speaches.ai server error: " ++ body

theorem tts_empty_eq (base : String) (b : TTSBackend) (req : TTSRequest)
    (h : req.text = "") :
    handleTTSGateway base b req = ⟨[], .jsonError 400 "text cannot be empty"⟩ := by
  simp [handleTTSGateway, h]

theorem tts_first_netErr_eq (base : String) (i r : HttpResult)
    (req : TTSRequest) (h : ¬ req.text = "") :
    handleTTSGateway base ⟨.netErr, i, r⟩ req =
      ⟨[.speechPost (speechURL base) (ttsPayload req)],
       .jsonError 503
         "speaches.ai server is not available. Make sure it\x27s running on localhost:8000"⟩ := by
  simp [handleTTSGateway, h, speechURL, ttsPayload]

theorem tts_first_ok_eq (base : String) (i r : HttpResult) (req : TTSRequest)
    (body : String) (h : ¬ req.text = "") :
    handleTTSGateway base ⟨.response 200 body, i, r⟩ req =
      ⟨[.speechPost (speechURL base) (ttsPayload req)], .audioStream body⟩ := by
  simp [handleTTSGateway, h, speechURL, ttsPayload]

theorem tts_noTrigger_eq (base : String) (i r : HttpResult) (req : TTSRequest)
    (s : Nat) (body : String) (h : ¬ req.text = "") (hs : ¬ s = 200)
    (htr : ¬ ((normalizeTTS req.model req.voice).model = "tts-1-piper" ∧
              isMissingModelSig body = true)) :
    handleTTSGateway base ⟨.response s body, i, r⟩ req =
      ⟨[.speechPost (speechURL base) (ttsPayload req)],
       .jsonError s (backendErrMsg body)⟩ := by
  simp [handleTTSGateway, h, hs, htr, speechURL, ttsPayload, backendErrMsg]

theorem tts_installErr_eq (base : String) (r : HttpResult) (req : TTSRequest)
    (s : Nat) (body : String) (h : ¬ req.text = "") (hs : ¬ s = 200)
    (hpiper : (normalizeTTS req.model req.voice).model = "tts-1-piper")
    (hsig : isMissingModelSig body = true) :
    handleTTSGateway base ⟨.response s body, .netErr, r⟩ req =
      ⟨[.speechPost (speechURL base) (ttsPayload req),
        .installPost (piperInstallURL base (normalizeTTS req.model req.voice).voice)],
       .jsonError s (backendErrMsg body)⟩ := by
  simp [handleTTSGateway, h, hs, hpiper, hsig, speechURL, ttsPayload,
        piperInstallURL, backendErrMsg]

theorem tts_retryNetErr_eq (base : String) (i1 : Nat) (i2 : String)
    (req : TTSRequest) (s : Nat) (body : String) (h : ¬ req.text = "")
    (hs : ¬ s = 200)
    (hpiper : (normalizeTTS req.model req.voice).model = "tts-1-piper")
    (hsig : isMissingModelSig body = true) :
    handleTTSGateway base ⟨.response s body, .response i1 i2, .netErr⟩ req =
      ⟨[.speechPost (speechURL base) (ttsPayload req),
        .installPost (piperInstallURL base (normalizeTTS req.model req.voice).voice),
        .speechPost (speechURL base) (ttsPayload req)],
       .jsonError 503 "Failed to generate speech after downloading model"⟩ := by
  simp [handleTTSGateway, h, hs, hpiper, hsig, speechURL, ttsPayload,
        piperInstallURL]

theorem tts_retryOk_eq (base : String) (i1 : Nat) (i2 : String)
    (req : TTSRequest) (s : Nat) (body body2 : String) (h : ¬ req.text = "")
    (hs : ¬ s = 200)
    (hpiper : (normalizeTTS req.model req.voice).model = "tts-1-piper")
    (hsig : isMissingModelSig body = true) :
    handleTTSGateway base
        ⟨.response s body, .response i1 i2, .response 200 body2⟩ req =
      ⟨[.speechPost (speechURL base) (ttsPayload req),
        .installPost (piperInstallURL base (normalizeTTS req.model req.voice).voice),
        .speechPost (speechURL base) (ttsPayload req)],
       .audioStream body2⟩ := by
  simp [handleTTSGateway, h, hs, hpiper, hsig, speechURL, ttsPayload,
        piperInstallURL]

theorem tts_retryFail_eq (base : String) (i1 : Nat) (i2 : String)
    (req : TTSRequest) (s s2 : Nat) (body body2 : String)
    (h : ¬ req.text = "") (hs : ¬ s = 200) (hs2 : ¬ s2 = 200)
    (hpiper : (normalizeTTS req.model req.voice).model = "tts-1-piper")
    (hsig : isMissingModelSig body = true) :
    handleTTSGateway base
        ⟨.response s body, .response i1 i2, .response s2 body2⟩ req =
      ⟨[.speechPost (speechURL base) (ttsPayload req),
        .installPost (piperInstallURL base (normalizeTTS req.model req.voice).voice),
        .speechPost (speechURL base) (ttsPayload req)],
       .jsonError s (backendErrMsg body)⟩ := by
  simp [handleTTSGateway, h, hs, hs2, hpiper, hsig, speechURL, ttsPayload,
        piperInstallURL, backendErrMsg]

theorem stt_no_audio_eq (decode : String → Option String) (base : String)
    (b : STTBackend) (lang tier : Option String) :
    handleSTTGateway decode base b ⟨lang, tier, none⟩ =
      ⟨[], .jsonError 400 "audio file is required"⟩ := by
  simp [handleSTTGateway]

theorem stt_first_netErr_eq (decode : String → Option String) (base : String)
    (i r : HttpResult) (lang tier : Option String) (file : STTFile) :
    handleSTTGateway decode base ⟨.netErr, i, r⟩ ⟨lang, tier, some file⟩ =
      ⟨[.transcribePost (transcribeURL base)
          (mkTranscribeBody file.filename file.data (sttLanguage (lang.getD "en")))],
       .jsonError 503
         "speaches.ai server is not available. Make sure it\x27s running on localhost:8000"⟩ := by
  simp [handleSTTGateway, transcribeURL]

theorem stt_first_ok_some_eq (decode : String → Option String) (base : String)
    (i r : HttpResult) (lang tier : Option String) (file : STTFile)
    (rbody t : String) (hdec : decode rbody = some t) :
    handleSTTGateway decode base ⟨.response 200 rbody, i, r⟩
        ⟨lang, tier, some file⟩ =
      ⟨[.transcribePost (transcribeURL base)
          (mkTranscribeBody file.filename file.data (sttLanguage (lang.getD "en")))],
       .jsonText 200 t⟩ := by
  simp [handleSTTGateway, hdec, transcribeURL]

theorem stt_first_ok_none_eq (decode : String → Option String) (base : String)
    (i r : HttpResult) (lang tier : Option String) (file : STTFile)
    (rbody : String) (hdec : decode rbody = none) :
    handleSTTGateway decode base ⟨.response 200 rbody, i, r⟩
        ⟨lang, tier, some file⟩ =
      ⟨[.transcribePost (transcribeURL base)
          (mkTranscribeBody file.filename file.data (sttLanguage (lang.getD "en")))],
       .jsonError 500 "failed to decode transcription response"⟩ := by
  simp [handleSTTGateway, hdec, transcribeURL]

theorem stt_noSig_eq (decode : String → Option String) (base : String)
    (i r : HttpResult) (lang tier : Option String) (file : STTFile)
    (s : Nat) (rbody : String) (hs : ¬ s = 200)
    (hsig : ¬ isMissingModelSig rbody = true) :
    handleSTTGateway decode base ⟨.response s rbody, i, r⟩
        ⟨lang, tier, some file⟩ =
      ⟨[.transcribePost (transcribeURL base)
          (mkTranscribeBody file.filename file.data (sttLanguage (lang.getD "en")))],
       .jsonError s (backendErrMsg rbody)⟩ := by
  simp [handleSTTGateway, hs, hsig, transcribeURL, backendErrMsg]

theorem stt_installErr_eq (decode : String → Option String) (base : String)
    (r : HttpResult) (lang tier : Option String) (file : STTFile)
    (s : Nat) (rbody : String) (hs : ¬ s = 200)
    (hsig : isMissingModelSig rbody = true) :
    handleSTTGateway decode base ⟨.response s rbody, .netErr, r⟩
        ⟨lang, tier, some file⟩ =
      ⟨[.transcribePost (transcribeURL base)
          (mkTranscribeBody file.filename file.data (sttLanguage (lang.getD "en"))),
        .installPost (base ++ "/v1/models/whisper-1")],
       .jsonError s (backendErrMsg rbody)⟩ := by
  simp [handleSTTGateway, hs, hsig, transcribeURL, backendErrMsg]

theorem stt_retryNetErr_eq (decode : String → Option String) (base : String)
    (i1 : Nat) (i2 : String) (lang tier : Option String) (file : STTFile)
    (s : Nat) (rbody : String) (hs : ¬ s = 200)
    (hsig : isMissingModelSig rbody = true) :
    handleSTTGateway decode base ⟨.response s rbody, .response i1 i2, .netErr⟩
        ⟨lang, tier, some file⟩ =
      ⟨[.transcribePost (transcribeURL base)
          (mkTranscribeBody file.filename file.data (sttLanguage (lang.getD "en"))),
        .installPost (base ++ "/v1/models/whisper-1"),
        .transcribePost (transcribeURL base)
          (mkTranscribeBody file.filename file.data (sttLanguage (lang.getD "en")))],
       .jsonError s (backendErrMsg rbody)⟩ := by
  simp [handleSTTGateway, hs, hsig, transcribeURL, backendErrMsg]

theorem stt_retryOk_eq (decode : String → Option String) (base : String)
    (i1 : Nat) (i2 : String) (lang tier : Option String) (file : STTFile)
    (s : Nat) (rbody rbody2 : String) (hs : ¬ s = 200)
    (hsig : isMissingModelSig rbody = true) :
    handleSTTGateway decode base
        ⟨.response s rbody, .response i1 i2, .response 200 rbody2⟩
        ⟨lang, tier, some file⟩ =
      ⟨[.transcribePost (transcribeURL base)
          (mkTranscribeBody file.filename file.data (sttLanguage (lang.getD "en"))),
        .installPost (base ++ "/v1/models/whisper-1"),
        .transcribePost (transcribeURL base)
          (mkTranscribeBody file.filename file.data (sttLanguage (lang.getD "en")))],
       .jsonText 200 ((decode rbody2).getD "")⟩ := by
  simp [handleSTTGateway, hs, hsig, transcribeURL]

theorem stt_retryFail_eq (decode : String → Option String) (base : String)
    (i1 : Nat) (i2 : String) (lang tier : Option String) (file : STTFile)
    (s s2 : Nat) (rbody rbody2 : String) (hs : ¬ s = 200) (hs2 : ¬ s2 = 200)
    (hsig : isMissingModelSig rbody = true) :
    handleSTTGateway decode base
        ⟨.response s rbody, .response i1 i2, .response s2 rbody2⟩
        ⟨lang, tier, some file⟩ =
      ⟨[.transcribePost (transcribeURL base)
          (mkTranscribeBody file.filename file.data (sttLanguage (lang.getD "en"))),
        .installPost (base ++ "/v1/models/whisper-1"),
        .transcribePost (transcribeURL base)
          (mkTranscribeBody file.filename file.data (sttLanguage (lang.getD "en")))],
       .jsonError s (backendErrMsg rbody)⟩ := by
  simp [handleSTTGateway, hs, hs2, hsig, transcribeURL, backendErrMsg]

theorem tts_first_call (base : String) (b : TTSBackend) (req : TTSRequest)
    (h : ¬ req.text = "") :
    (handleTTSGateway base b req).calls.head? =
      some (.speechPost (speechURL base) (ttsPayload req)) := by
  obtain ⟨f, i, r⟩ := b
  cases f with
  | netErr => rw [tts_first_netErr_eq base i r req h]; rfl
  | response s body =>
      by_cases hs : s = 200
      · subst hs
        rw [tts_first_ok_eq base i r req body h]; rfl
      · by_cases htr : (normalizeTTS req.model req.voice).model = "tts-1-piper" ∧
            isMissingModelSig body = true
        · cases i with
          | netErr => rw [tts_installErr_eq base r req s body h hs htr.1 htr.2]; rfl
          | response i1 i2 =>
              cases r with
              | netErr => rw [tts_retryNetErr_eq base i1 i2 req s body h hs htr.1 htr.2]; rfl
              | response s2 body2 =>
                  by_cases hs2 : s2 = 200
                  · subst hs2
                    rw [tts_retryOk_eq base i1 i2 req s body body2 h hs htr.1 htr.2]; rfl
                  · rw [tts_retryFail_eq base i1 i2 req s s2 body body2 h hs hs2 htr.1 htr.2]; rfl
        · rw [tts_noTrigger_eq base i r req s body h hs htr]; rfl


theorem norm_kokoro_eq (voice : String) :
    normalizeTTS "tts-1" voice =
      ⟨"tts-1", if kokoroVoices.contains voice then voice else "af_nova",
       "tts-1"⟩ := rfl

theorem norm_empty_eq (voice : String) :
    normalizeTTS "" voice = normalizeTTS "tts-1" voice := rfl

theorem norm_piper_eq (voice : String) :
    normalizeTTS "tts-1-piper" voice =
      ⟨"tts-1-piper",
       if piperVoices.contains voice then voice else "en_US-ryan-medium",
       "speaches-ai/piper-" ++
         (if piperVoices.contains voice then voice else "en_US-ryan-medium")⟩ := rfl

theorem norm_other_eq (model voice : String) (h1 : ¬ model = "")
    (h2 : ¬ model = "tts-1") (h3 : ¬ model = "tts-1-piper") :
    normalizeTTS model voice = ⟨"tts-1", "af_nova", "tts-1"⟩ := by
  simp [normalizeTTS, h1, h2, h3]

theorem norm_model_piper (voice : String) :
    (normalizeTTS "tts-1-piper" voice).model = "tts-1-piper" := by
  rw [norm_piper_eq]

theorem norm_model_ne_piper (model voice : String)
    (h : ¬ model = "tts-1-piper") :
    ¬ (normalizeTTS model voice).model = "tts-1-piper" := by
  by_cases h1 : model = ""
  · subst h1
    rw [norm_empty_eq, norm_kokoro_eq]
    simp
  · by_cases h2 : model = "tts-1"
    · subst h2
      rw [norm_kokoro_eq]
      simp
    · rw [norm_other_eq model voice h1 h2 h]
      simp

theorem stt_first_call (decode : String → Option String) (base : String)
    (b : STTBackend) (lang tier : Option String) (file : STTFile) :
    (handleSTTGateway decode base b ⟨lang, tier, some file⟩).calls.head? =
      some (.transcribePost (transcribeURL base)
        (mkTranscribeBody file.filename file.data (sttLanguage (lang.getD "en")))) := by
  obtain ⟨f, i, r⟩ := b
  cases f with
  | netErr => rw [stt_first_netErr_eq]; rfl
  | response s rbody =>
      by_cases hs : s = 200
      · subst hs
        cases hdec : decode rbody with
        | some t => rw [stt_first_ok_some_eq decode base i r lang tier file rbody t hdec]; rfl
        | none => rw [stt_first_ok_none_eq decode base i r lang tier file rbody hdec]; rfl
      · by_cases hsig : isMissingModelSig rbody = true
        · cases i with
          | netErr => rw [stt_installErr_eq decode base r lang tier file s rbody hs hsig]; rfl
          | response i1 i2 =>
              cases r with
              | netErr =>
                  rw [stt_retryNetErr_eq decode base i1 i2 lang tier file s rbody hs hsig]; rfl
              | response s2 rbody2 =>
                  by_cases hs2 : s2 = 200
                  · subst hs2
                    rw [stt_retryOk_eq decode base i1 i2 lang tier file s rbody rbody2 hs hsig]; rfl
                  · rw [stt_retryFail_eq decode base i1 i2 lang tier file s s2 rbody rbody2 hs hs2 hsig]; rfl
        · rw [stt_noSig_eq decode base i r lang tier file s rbody hs hsig]; rfl

theorem tts_calls_shape (base : String) (b : TTSBackend) (req : TTSRequest) :
    (handleTTSGateway base b req).calls = [] ∨
    (handleTTSGateway base b req).calls =
      [.speechPost (speechURL base) (ttsPayload req)] ∨
    (∃ u, (handleTTSGateway base b req).calls =
      [.speechPost (speechURL base) (ttsPayload req), .installPost u]) ∨
    (∃ u, (handleTTSGateway base b req).calls =
      [.speechPost (speechURL base) (ttsPayload req), .installPost u,
       .speechPost (speechURL base) (ttsPayload req)]) := by
  by_cases h : req.text = ""
  · exact Or.inl (by rw [tts_empty_eq base b req h])
  obtain ⟨f, i, r⟩ := b
  cases f with
  | netErr => exact Or.inr (Or.inl (by rw [tts_first_netErr_eq base i r req h]))
  | response s body =>
      by_cases hs : s = 200
      · subst hs
        exact Or.inr (Or.inl (by rw [tts_first_ok_eq base i r req body h]))
      · by_cases htr : (normalizeTTS req.model req.voice).model = "tts-1-piper" ∧
            isMissingModelSig body = true
        · cases i with
          | netErr =>
              exact Or.inr (Or.inr (Or.inl ⟨_,
                by rw [tts_installErr_eq base r req s body h hs htr.1 htr.2]⟩))
          | response i1 i2 =>
              cases r with
              | netErr =>
                  exact Or.inr (Or.inr (Or.inr ⟨_,
                    by rw [tts_retryNetErr_eq base i1 i2 req s body h hs htr.1 htr.2]⟩))
              | response s2 body2 =>
                  by_cases hs2 : s2 = 200
                  · subst hs2
                    exact Or.inr (Or.inr (Or.inr ⟨_,
                      by rw [tts_retryOk_eq base i1 i2 req s body body2 h hs htr.1 htr.2]⟩))
                  · exact Or.inr (Or.inr (Or.inr ⟨_,
                      by rw [tts_retryFail_eq base i1 i2 req s s2 body body2 h hs hs2 htr.1 htr.2]⟩))
        · exact Or.inr (Or.inl (by rw [tts_noTrigger_eq base i r req s body h hs htr]))

theorem stt_calls_shape (decode : String → Option String) (base : String)
    (b : STTBackend) (form : STTForm) :
    (handleSTTGateway decode base b form).calls = [] ∨
    (∃ u m, (handleSTTGateway decode base b form).calls = [.transcribePost u m]) ∨
    (∃ u m v, (handleSTTGateway decode base b form).calls =
      [.transcribePost u m, .installPost v]) ∨
    (∃ u m v m2, (handleSTTGateway decode base b form).calls =
      [.transcribePost u m, .installPost v, .transcribePost u m2]) := by
  obtain ⟨lang, tier, audio⟩ := form
  cases audio with
  | none => exact Or.inl (by rw [stt_no_audio_eq])
  | some file =>
      obtain ⟨f, i, r⟩ := b
      cases f with
      | netErr => exact Or.inr (Or.inl ⟨_, _, by rw [stt_first_netErr_eq]⟩)
      | response s rbody =>
          by_cases hs : s = 200
          · subst hs
            cases hdec : decode rbody with
            | some t =>
                exact Or.inr (Or.inl ⟨_, _,
                  by rw [stt_first_ok_some_eq decode base i r lang tier file rbody t hdec]⟩)
            | none =>
                exact Or.inr (Or.inl ⟨_, _,
                  by rw [stt_first_ok_none_eq decode base i r lang tier file rbody hdec]⟩)
          · by_cases hsig : isMissingModelSig rbody = true
            · cases i with
              | netErr =>
                  exact Or.inr (Or.inr (Or.inl ⟨_, _, _,
                    by rw [stt_installErr_eq decode base r lang tier file s rbody hs hsig]⟩))
              | response i1 i2 =>
                  cases r with
                  | netErr =>
                      exact Or.inr (Or.inr (Or.inr ⟨_, _, _, _,
                        by rw [stt_retryNetErr_eq decode base i1 i2 lang tier file s rbody hs hsig]⟩))
                  | response s2 rbody2 =>
                      by_cases hs2 : s2 = 200
                      · subst hs2
                        exact Or.inr (Or.inr (Or.inr ⟨_, _, _, _,
                          by rw [stt_retryOk_eq decode base i1 i2 lang tier file s rbody rbody2 hs hsig]⟩))
                      · exact Or.inr (Or.inr (Or.inr ⟨_, _, _, _,
                          by rw [stt_retryFail_eq decode base i1 i2 lang tier file s s2 rbody rbody2 hs hs2 hsig]⟩))
            · exact Or.inr (Or.inl ⟨_, _,
                by rw [stt_noSig_eq decode base i r lang tier file s rbody hs hsig]⟩)

/-- C3: counterexample.  The claim says that under any kokoro-class model
name — including unrecognized names — every supported kokoro voice is
returned unchanged.  But for the unrecognized model name "bogus" the
normalizer forces the voice to "af_nova" even though "am_adam" is in the
kokoro allow-list, so the voice is not returned unchanged. -/
theorem C3_counterexample :
    kokoroVoices.contains "am_adam" = true ∧
    (normalizeTTS "bogus" "am_adam").voice = "af_nova" ∧
    ¬ (normalizeTTS "bogus" "am_adam").voice = "am_adam" := by
  decide

/-- C3 (amended): for every synthesis request whose model name is not
"tts-1-piper" the canonical backend model identifier is the fixed kokoro
model name "tts-1" and this step never errors; the kokoro allow-list is
consulted only when the model name is "tts-1" or empty — there a supported
kokoro voice is returned unchanged and any other voice is replaced by
"af_nova" — while for any other unrecognized model name the voice is
always replaced by "af_nova" regardless of the allow-list. -/
theorem C3_amended (model voice : String) (h : ¬ model = "tts-1-piper") :
    (normalizeTTS model voice).actualModel = "tts-1" ∧
    ((model = "tts-1" ∨ model = "") →
       ((kokoroVoices.contains voice = true →
           (normalizeTTS model voice).voice = voice) ∧
        (kokoroVoices.contains voice = false →
           (normalizeTTS model voice).voice = "af_nova"))) ∧
    (¬ model = "tts-1" → ¬ model = "" →
       (normalizeTTS model voice).voice = "af_nova") := by
  by_cases h1 : model = ""
  · subst h1
    rw [norm_empty_eq, norm_kokoro_eq]
    refine ⟨rfl, fun _ => ⟨fun hv => ?_, fun hv => ?_⟩, fun h2 h3 => absurd rfl h3⟩
    · simp at hv
      simp [hv]
    · simp at hv
      simp [hv]
  · by_cases h2 : model = "tts-1"
    · subst h2
      rw [norm_kokoro_eq]
      refine ⟨rfl, fun _ => ⟨fun hv => ?_, fun hv => ?_⟩, fun h3 _ => absurd rfl h3⟩
      · simp at hv
        simp [hv]
      · simp at hv
        simp [hv]
    · rw [norm_other_eq model voice h1 h2 h]
      refine ⟨rfl, fun hm => ?_, fun _ _ => rfl⟩
      rcases hm with hm | hm
      · exact absurd hm h2
      · exact absurd hm h1

/-- C3 witness: instance of the amended claim at model "tts-1" and the
supported kokoro voice "af_bella". -/
theorem C3_witness :
    ¬ ("tts-1" : String) = "tts-1-piper" ∧
    kokoroVoices.contains "af_bella" = true ∧
    (normalizeTTS "tts-1" "af_bella").voice = "af_bella" :=
  ⟨by decide, by decide,
   ((C3_amended "tts-1" "af_bella" (by decide)).2.1 (Or.inl rfl)).1 (by decide)⟩

/-- C4: confirmed.  Under model "tts-1-piper" a voice in the piper
allow-list is kept and any other voice is replaced by "en_US-ryan-medium",
then the canonical backend model identifier is exactly "speaches-ai/piper-"
followed by the resolved voice; and the end-to-end scenario with text
"Hello world" and voice "bogus" issues its first backend call with
canonical model "speaches-ai/piper-en_US-ryan-medium" and voice
"en_US-ryan-medium" in the payload. -/
theorem C4_thm (base : String) (b : TTSBackend) (voice : String) :
    ((piperVoices.contains voice = true →
        (normalizeTTS "tts-1-piper" voice).voice = voice ∧
        (normalizeTTS "tts-1-piper" voice).actualModel =
          "speaches-ai/piper-" ++ voice) ∧
     (piperVoices.contains voice = false →
        (normalizeTTS "tts-1-piper" voice).voice = "en_US-ryan-medium" ∧
        (normalizeTTS "tts-1-piper" voice).actualModel =
          "speaches-ai/piper-en_US-ryan-medium")) ∧
    (handleTTSGateway base b ⟨"Hello world", "bogus", "tts-1-piper"⟩).calls.head? =
      some (.speechPost (speechURL base)
        ⟨"speaches-ai/piper-en_US-ryan-medium", "Hello world",
         "en_US-ryan-medium"⟩) := by
  refine ⟨⟨fun hv => ?_, fun hv => ?_⟩, ?_⟩
  · rw [norm_piper_eq]
    simp at hv
    simp [hv]
  · rw [norm_piper_eq]
    simp at hv
    simp [hv]
  · rw [tts_first_call base b ⟨"Hello world", "bogus", "tts-1-piper"⟩ (by decide)]
    rfl

/-- C4 witness: instance at the supported piper voice "en_US-ryan-high". -/
theorem C4_witness :
    piperVoices.contains "en_US-ryan-high" = true ∧
    ((normalizeTTS "tts-1-piper" "en_US-ryan-high").voice = "en_US-ryan-high" ∧
     (normalizeTTS "tts-1-piper" "en_US-ryan-high").actualModel =
       "speaches-ai/piper-en_US-ryan-high") :=
  ⟨by decide,
   (C4_thm "http://localhost:8000" ⟨.netErr, .netErr, .netErr⟩
      "en_US-ryan-high").1.1 (by decide)⟩

/-- C5: counterexample.  The claim says whitespace-only text fails with
InvalidInput and no backend call is made, but for the single-space text the
gateway issues the backend call and streams the audio back. -/
theorem C5_counterexample :
    (handleTTSGateway "http://localhost:8000"
       ⟨.response 200 "AUDIO", .netErr, .netErr⟩ ⟨" ", "", ""⟩).calls.length = 1 ∧
    (handleTTSGateway "http://localhost:8000"
       ⟨.response 200 "AUDIO", .netErr, .netErr⟩ ⟨" ", "", ""⟩).result =
      .audioStream "AUDIO" := by
  decide

/-- C5 (amended): only the exactly-empty text is rejected — it fails with
the 400 InvalidInput response before any backend call is made — while any
non-empty text, including whitespace-only text, proceeds to a backend
speech call. -/
theorem C5_amended (base : String) (b : TTSBackend) (req : TTSRequest) :
    (req.text = "" →
       handleTTSGateway base b req =
         ⟨[], .jsonError 400 "text cannot be empty"⟩) ∧
    (¬ req.text = "" →
       (handleTTSGateway base b req).calls.head? =
         some (.speechPost (speechURL base) (ttsPayload req))) :=
  ⟨fun h => tts_empty_eq base b req h, fun h => tts_first_call base b req h⟩

/-- C5 witness: instance of the amended claim at empty text. -/
theorem C5_witness :
    handleTTSGateway "http://localhost:8000" ⟨.netErr, .netErr, .netErr⟩
        ⟨"", "x", "y"⟩ =
      ⟨[], .jsonError 400 "text cannot be empty"⟩ :=
  (C5_amended "http://localhost:8000" ⟨.netErr, .netErr, .netErr⟩
     ⟨"", "x", "y"⟩).1 rfl

/-- C7: confirmed.  A transcription form with no audio file part fails with
the 400 InvalidInput response and no network call; a language not in the
supported set is replaced by "en" (and the replacement is what is placed in
the multipart body actually sent); a quality tier outside fast, standard,
accurate is replaced by "standard". -/
theorem C7_thm (decode : String → Option String) (base : String)
    (b : STTBackend) (lang tier : String) (form : STTForm) (file : STTFile) :
    (form.audio = none →
       handleSTTGateway decode base b form =
         ⟨[], .jsonError 400 "audio file is required"⟩) ∧
    (validLanguages.contains lang = false → sttLanguage lang = "en") ∧
    (validModels.contains tier = false → sttModelTier tier = "standard") ∧
    (form.audio = some file →
       (handleSTTGateway decode base b form).calls.head? =
         some (.transcribePost (transcribeURL base)
           (mkTranscribeBody file.filename file.data
             (sttLanguage (form.language.getD "en"))))) := by
  obtain ⟨flang, ftier, faudio⟩ := form
  refine ⟨fun h => ?_, fun h => ?_, fun h => ?_, fun h => ?_⟩
  · cases h
    rw [stt_no_audio_eq]
  · simp at h
    simp [sttLanguage, h]
  · simp at h
    simp [sttModelTier, h]
  · cases h
    exact stt_first_call decode base b flang ftier file

/-- C7 witness: instance at a missing audio part and at the unsupported
language "xx" and unsupported tier "turbo". -/
theorem C7_witness :
    (handleSTTGateway (fun _ => none) "http://localhost:8000"
        ⟨.netErr, .netErr, .netErr⟩ ⟨none, none, none⟩ =
      ⟨[], .jsonError 400 "audio file is required"⟩) ∧
    sttLanguage "xx" = "en" ∧ sttModelTier "turbo" = "standard" :=
  ⟨(C7_thm (fun _ => none) "http://localhost:8000" ⟨.netErr, .netErr, .netErr⟩
      "xx" "turbo" ⟨none, none, none⟩ ⟨"f", "d"⟩).1 rfl,
   (C7_thm (fun _ => none) "http://localhost:8000" ⟨.netErr, .netErr, .netErr⟩
      "xx" "turbo" ⟨none, none, none⟩ ⟨"f", "d"⟩).2.1 (by decide),
   (C7_thm (fun _ => none) "http://localhost:8000" ⟨.netErr, .netErr, .netErr⟩
      "xx" "turbo" ⟨none, none, none⟩ ⟨"f", "d"⟩).2.2.1 (by decide)⟩

/-- C10: confirmed.  Two transcription requests that differ only in the
quality-tier form field produce identical behaviour — in particular an
identical multipart body on every backend call — and the model field of the
multipart body is always the fixed string "whisper-1" regardless of the
tier. -/
theorem C10_thm (decode : String → Option String) (base : String)
    (b : STTBackend) (language t1 t2 : Option String)
    (audio : Option STTFile) :
    handleSTTGateway decode base b ⟨language, t1, audio⟩ =
      handleSTTGateway decode base b ⟨language, t2, audio⟩ ∧
    ∀ fn d l, (mkTranscribeBody fn d l).fields =
      [("language", l), ("model", "whisper-1")] :=
  ⟨rfl, fun _ _ _ => rfl⟩

/-- C1: counterexample.  The claim says a matched missing-model signature on
a piper-class request leads to exactly one install POST followed by exactly
one retried speech POST; but when the install POST itself fails at the
network level the gateway skips the retry, so only one speech POST is ever
issued. -/
theorem C1_counterexample :
    installCount (handleTTSGateway "http://localhost:8000"
      ⟨.response 404 "Model xyz not found", .netErr, .netErr⟩
      ⟨"hi", "en_US-ryan-medium", "tts-1-piper"⟩).calls = 1 ∧
    speechCount (handleTTSGateway "http://localhost:8000"
      ⟨.response 404 "Model xyz not found", .netErr, .netErr⟩
      ⟨"hi", "en_US-ryan-medium", "tts-1-piper"⟩).calls = 1 := by
  decide

/-- C1 (amended): for a piper-class request whose first speech POST returns
a non-200 status, if the body matches the missing-model signature the
gateway issues exactly one install POST to base/v1/models/speaches-ai%2Fpiper-voice
and, provided the install POST did not fail at the network level, exactly
one retried speech POST with an identical payload; if the body does not
match, or the model is not piper-class, no install call is made and the
backend status and body are propagated as the BackendError response. -/
theorem C1_amended (base text voice : String) (b : TTSBackend) (s : Nat)
    (body : String) (htext : ¬ text = "")
    (hfirst : b.first = .response s body) (hs : ¬ s = 200) :
    (isMissingModelSig body = true →
       installURLs (handleTTSGateway base b ⟨text, voice, "tts-1-piper"⟩).calls =
         [piperInstallURL base (normalizeTTS "tts-1-piper" voice).voice] ∧
       (¬ b.install = .netErr →
          speechPostList (handleTTSGateway base b ⟨text, voice, "tts-1-piper"⟩).calls =
            [(speechURL base, ttsPayload ⟨text, voice, "tts-1-piper"⟩),
             (speechURL base, ttsPayload ⟨text, voice, "tts-1-piper"⟩)])) ∧
    (isMissingModelSig body = false →
       installURLs (handleTTSGateway base b ⟨text, voice, "tts-1-piper"⟩).calls = [] ∧
       (handleTTSGateway base b ⟨text, voice, "tts-1-piper"⟩).result =
         .jsonError s (backendErrMsg body)) ∧
    (∀ model, ¬ model = "tts-1-piper" →
       installURLs (handleTTSGateway base b ⟨text, voice, model⟩).calls = [] ∧
       (handleTTSGateway base b ⟨text, voice, model⟩).result =
         .jsonError s (backendErrMsg body)) := by
  obtain ⟨f, i, r⟩ := b
  dsimp only at hfirst
  subst hfirst
  refine ⟨fun hsig => ?_, fun hnsig => ?_, fun model hm => ?_⟩
  · have hpiper : (normalizeTTS "tts-1-piper" voice).model = "tts-1-piper" :=
      norm_model_piper voice
    cases i with
    | netErr =>
        rw [tts_installErr_eq base r ⟨text, voice, "tts-1-piper"⟩ s body htext hs hpiper hsig]
        exact ⟨by simp [installURLs], fun hni => absurd rfl hni⟩
    | response i1 i2 =>
        cases r with
        | netErr =>
            rw [tts_retryNetErr_eq base i1 i2 ⟨text, voice, "tts-1-piper"⟩ s body htext hs hpiper hsig]
            exact ⟨by simp [installURLs], fun _ => by simp [speechPostList, speechURL, ttsPayload]⟩
        | response s2 body2 =>
            by_cases hs2 : s2 = 200
            · subst hs2
              rw [tts_retryOk_eq base i1 i2 ⟨text, voice, "tts-1-piper"⟩ s body body2 htext hs hpiper hsig]
              exact ⟨by simp [installURLs], fun _ => by simp [speechPostList, speechURL, ttsPayload]⟩
            · rw [tts_retryFail_eq base i1 i2 ⟨text, voice, "tts-1-piper"⟩ s s2 body body2 htext hs hs2 hpiper hsig]
              exact ⟨by simp [installURLs], fun _ => by simp [speechPostList, speechURL, ttsPayload]⟩
  · have htr : ¬ ((normalizeTTS "tts-1-piper" voice).model = "tts-1-piper" ∧
        isMissingModelSig body = true) := by
      intro hc
      rw [hnsig] at hc
      exact absurd hc.2 (by decide)
    rw [tts_noTrigger_eq base i r ⟨text, voice, "tts-1-piper"⟩ s body htext hs htr]
    exact ⟨by simp [installURLs], rfl⟩
  · have htr : ¬ ((normalizeTTS model voice).model = "tts-1-piper" ∧
        isMissingModelSig body = true) :=
      fun hc => norm_model_ne_piper model voice hm hc.1
    rw [tts_noTrigger_eq base i r ⟨text, voice, model⟩ s body htext hs htr]
    exact ⟨by simp [installURLs], rfl⟩

/-- C1 witness: instance of the amended claim for a 404 missing-model body
on a piper request whose install POST succeeds. -/
theorem C1_witness :
    installURLs (handleTTSGateway "http://localhost:8000"
        ⟨.response 404 "Model piper not found", .response 200 "ok", .response 200 "A"⟩
        ⟨"hello", "en_US-amy-low", "tts-1-piper"⟩).calls =
      [piperInstallURL "http://localhost:8000"
        (normalizeTTS "tts-1-piper" "en_US-amy-low").voice] ∧
    speechPostList (handleTTSGateway "http://localhost:8000"
        ⟨.response 404 "Model piper not found", .response 200 "ok", .response 200 "A"⟩
        ⟨"hello", "en_US-amy-low", "tts-1-piper"⟩).calls =
      [(speechURL "http://localhost:8000",
        ttsPayload ⟨"hello", "en_US-amy-low", "tts-1-piper"⟩),
       (speechURL "http://localhost:8000",
        ttsPayload ⟨"hello", "en_US-amy-low", "tts-1-piper"⟩)] :=
  ⟨((C1_amended "http://localhost:8000" "hello" "en_US-amy-low"
      ⟨.response 404 "Model piper not found", .response 200 "ok", .response 200 "A"⟩
      404 "Model piper not found" (by decide) rfl (by decide)).1 (by decide)).1,
   ((C1_amended "http://localhost:8000" "hello" "en_US-amy-low"
      ⟨.response 404 "Model piper not found", .response 200 "ok", .response 200 "A"⟩
      404 "Model piper not found" (by decide) rfl (by decide)).1 (by decide)).2
     (by decide)⟩

/-- C6: confirmed.  A first backend call answered with HTTP 200 never leads
to an install call — in either pipeline — and over the whole handling of a
single request at most one retry is performed: never more than two speech
POSTs for synthesis nor more than two transcription POSTs for
transcription. -/
theorem C6_thm (decode : String → Option String) (base : String)
    (bt : TTSBackend) (bs : STTBackend) (reqT : TTSRequest) (form : STTForm)
    (body : String) :
    (bt.first = .response 200 body →
       installCount (handleTTSGateway base bt reqT).calls = 0) ∧
    (bs.first = .response 200 body →
       installCount (handleSTTGateway decode base bs form).calls = 0) ∧
    speechCount (handleTTSGateway base bt reqT).calls ≤ 2 ∧
    transcribeCount (handleSTTGateway decode base bs form).calls ≤ 2 := by
  refine ⟨fun h => ?_, fun h => ?_, ?_, ?_⟩
  · obtain ⟨f, i, r⟩ := bt
    dsimp only at h
    subst h
    by_cases htext : reqT.text = ""
    · rw [tts_empty_eq base _ reqT htext]
      rfl
    · rw [tts_first_ok_eq base i r reqT body htext]
      rfl
  · obtain ⟨f, i, r⟩ := bs
    dsimp only at h
    subst h
    obtain ⟨flang, ftier, faudio⟩ := form
    cases faudio with
    | none => rw [stt_no_audio_eq]; rfl
    | some file =>
        cases hdec : decode body with
        | some t => rw [stt_first_ok_some_eq decode base i r flang ftier file body t hdec]; rfl
        | none => rw [stt_first_ok_none_eq decode base i r flang ftier file body hdec]; rfl
  · rcases tts_calls_shape base bt reqT with h | h | ⟨u, h⟩ | ⟨u, h⟩ <;>
      simp [speechCount, h, isSpeech]
  · rcases stt_calls_shape decode base bs form with
      h | ⟨u, m, h⟩ | ⟨u, m, v, h⟩ | ⟨u, m, v, m2, h⟩ <;>
      simp [transcribeCount, h, isTranscribe]

/-- C6 witness: instance at a 200 first response. -/
theorem C6_witness :
    installCount (handleTTSGateway "http://localhost:8000"
      ⟨.response 200 "A", .netErr, .netErr⟩ ⟨"hi", "v", "m"⟩).calls = 0 :=
  (C6_thm (fun _ => none) "http://localhost:8000"
     ⟨.response 200 "A", .netErr, .netErr⟩ ⟨.netErr, .netErr, .netErr⟩
     ⟨"hi", "v", "m"⟩ ⟨none, none, none⟩ "A").1 rfl

/-- C2: counterexample.  The claim says any retry failure surfaces the
original first-attempt error; but in synthesis, when the retried speech POST
fails at the network level, the gateway returns the fixed 503 message
instead of the original 404 status and body. -/
theorem C2_counterexample :
    (handleTTSGateway "http://localhost:8000"
       ⟨.response 404 "Model xyz not found", .response 200 "", .netErr⟩
       ⟨"hello", "en_US-amy-medium", "tts-1-piper"⟩).result =
      .jsonError 503 "Failed to generate speech after downloading model" ∧
    ¬ (handleTTSGateway "http://localhost:8000"
       ⟨.response 404 "Model xyz not found", .response 200 "", .netErr⟩
       ⟨"hello", "en_US-amy-medium", "tts-1-piper"⟩).result =
      .jsonError 404 (backendErrMsg "Model xyz not found") := by
  decide

/-- C2 (amended): inside the install-and-retry flow, the original
first-attempt status and body are returned when the install POST fails at
the network level or the retried call returns a non-200 status, in both
pipelines, and also when the transcription retry fails at the network
level; the one exception is synthesis whose retried call fails at the
network level, where a fixed 503 message replaces the original error. -/
theorem C2_amended (decode : String → Option String) (base text voice : String)
    (bt : TTSBackend) (bs : STTBackend) (lng ltier : Option String)
    (file : STTFile) (s : Nat) (body : String)
    (htext : ¬ text = "")
    (ht1 : bt.first = .response s body) (hb1 : bs.first = .response s body)
    (hs : ¬ s = 200) (hsig : isMissingModelSig body = true) :
    ((bt.install = .netErr →
        (handleTTSGateway base bt ⟨text, voice, "tts-1-piper"⟩).result =
          .jsonError s (backendErrMsg body)) ∧
     (∀ i1 i2 s2 b2, bt.install = .response i1 i2 →
        bt.retry = .response s2 b2 → ¬ s2 = 200 →
        (handleTTSGateway base bt ⟨text, voice, "tts-1-piper"⟩).result =
          .jsonError s (backendErrMsg body)) ∧
     (∀ i1 i2, bt.install = .response i1 i2 → bt.retry = .netErr →
        (handleTTSGateway base bt ⟨text, voice, "tts-1-piper"⟩).result =
          .jsonError 503 "Failed to generate speech after downloading model")) ∧
    ((bs.install = .netErr →
        (handleSTTGateway decode base bs ⟨lng, ltier, some file⟩).result =
          .jsonError s (backendErrMsg body)) ∧
     (∀ i1 i2, bs.install = .response i1 i2 → bs.retry = .netErr →
        (handleSTTGateway decode base bs ⟨lng, ltier, some file⟩).result =
          .jsonError s (backendErrMsg body)) ∧
     (∀ i1 i2 s2 b2, bs.install = .response i1 i2 →
        bs.retry = .response s2 b2 → ¬ s2 = 200 →
        (handleSTTGateway decode base bs ⟨lng, ltier, some file⟩).result =
          .jsonError s (backendErrMsg body))) := by
  obtain ⟨fT, iT, rT⟩ := bt
  obtain ⟨fS, iS, rS⟩ := bs
  dsimp only at ht1 hb1
  subst ht1
  subst hb1
  have hpiper : (normalizeTTS "tts-1-piper" voice).model = "tts-1-piper" :=
    norm_model_piper voice
  refine ⟨⟨fun hi => ?_, fun i1 i2 s2 b2 hi hr hs2 => ?_, fun i1 i2 hi hr => ?_⟩,
          fun hi => ?_, fun i1 i2 hi hr => ?_, fun i1 i2 s2 b2 hi hr hs2 => ?_⟩
  · dsimp only at hi
    subst hi
    rw [tts_installErr_eq base rT ⟨text, voice, "tts-1-piper"⟩ s body htext hs hpiper hsig]
  · dsimp only at hi hr
    subst hi
    subst hr
    rw [tts_retryFail_eq base i1 i2 ⟨text, voice, "tts-1-piper"⟩ s s2 body b2 htext hs hs2 hpiper hsig]
  · dsimp only at hi hr
    subst hi
    subst hr
    rw [tts_retryNetErr_eq base i1 i2 ⟨text, voice, "tts-1-piper"⟩ s body htext hs hpiper hsig]
  · dsimp only at hi
    subst hi
    rw [stt_installErr_eq decode base rS lng ltier file s body hs hsig]
  · dsimp only at hi hr
    subst hi
    subst hr
    rw [stt_retryNetErr_eq decode base i1 i2 lng ltier file s body hs hsig]
  · dsimp only at hi hr
    subst hi
    subst hr
    rw [stt_retryFail_eq decode base i1 i2 lng ltier file s s2 body b2 hs hs2 hsig]

/-- C2 witness: instance where the install POST fails at the network level
and the original 404 error is returned. -/
theorem C2_witness :
    (handleTTSGateway "http://localhost:8000"
        ⟨.response 404 "Model z not found", .netErr, .netErr⟩
        ⟨"hey", "en_US-joe-medium", "tts-1-piper"⟩).result =
      .jsonError 404 (backendErrMsg "Model z not found") :=
  ((C2_amended (fun _ => none) "http://localhost:8000" "hey" "en_US-joe-medium"
      ⟨.response 404 "Model z not found", .netErr, .netErr⟩
      ⟨.response 404 "Model z not found", .netErr, .netErr⟩
      none none ⟨"f", "d"⟩ 404 "Model z not found"
      (by decide) rfl rfl (by decide) (by decide)).1).1 rfl

/-- C9: counterexample.  The claim says every non-success backend status
that does not lead to a successful retry is delivered with the original
status and body; but a synthesis retry that fails at the network level
yields a fixed 503 message carrying neither the original 500 status nor the
original body. -/
theorem C9_counterexample :
    (handleTTSGateway "http://localhost:8000"
       ⟨.response 500 "piper model q is not installed locally",
        .response 201 "x", .netErr⟩
       ⟨"howdy", "en_US-lessac-high", "tts-1-piper"⟩).result =
      .jsonError 503 "Failed to generate speech after downloading model" ∧
    ¬ (handleTTSGateway "http://localhost:8000"
       ⟨.response 500 "piper model q is not installed locally",
        .response 201 "x", .netErr⟩
       ⟨"howdy", "en_US-lessac-high", "tts-1-piper"⟩).result =
      .jsonError 500 (backendErrMsg "piper model q is not installed locally") := by
  decide

/-- C9 (amended): whenever the backend answers with a non-success status
and no successful retry follows, the response to the caller carries the
backend status code unchanged and the backend body verbatim inside the
fixed-prefix error message — in every such case except a synthesis retry
failing at the network level, which returns a fixed 503 message instead. -/
theorem C9_amended (decode : String → Option String) (base : String)
    (bt : TTSBackend) (bs : STTBackend) (reqT : TTSRequest)
    (lng ltier : Option String) (file : STTFile) (s : Nat) (body : String)
    (htext : ¬ reqT.text = "")
    (ht1 : bt.first = .response s body) (hb1 : bs.first = .response s body)
    (hs : ¬ s = 200) :
    ((¬ ((normalizeTTS reqT.model reqT.voice).model = "tts-1-piper" ∧
         isMissingModelSig body = true) →
        (handleTTSGateway base bt reqT).result =
          .jsonError s (backendErrMsg body)) ∧
     (bt.install = .netErr →
        (handleTTSGateway base bt reqT).result =
          .jsonError s (backendErrMsg body)) ∧
     (∀ i1 i2 s2 b2, bt.install = .response i1 i2 →
        bt.retry = .response s2 b2 → ¬ s2 = 200 →
        (handleTTSGateway base bt reqT).result =
          .jsonError s (backendErrMsg body))) ∧
    ((¬ isMissingModelSig body = true →
        (handleSTTGateway decode base bs ⟨lng, ltier, some file⟩).result =
          .jsonError s (backendErrMsg body)) ∧
     (bs.install = .netErr →
        (handleSTTGateway decode base bs ⟨lng, ltier, some file⟩).result =
          .jsonError s (backendErrMsg body)) ∧
     (bs.retry = .netErr →
        (handleSTTGateway decode base bs ⟨lng, ltier, some file⟩).result =
          .jsonError s (backendErrMsg body)) ∧
     (∀ s2 b2, bs.retry = .response s2 b2 → ¬ s2 = 200 →
        (handleSTTGateway decode base bs ⟨lng, ltier, some file⟩).result =
          .jsonError s (backendErrMsg body))) := by
  obtain ⟨fT, iT, rT⟩ := bt
  obtain ⟨fS, iS, rS⟩ := bs
  dsimp only at ht1 hb1
  subst ht1
  subst hb1
  refine ⟨⟨fun htr => ?_, fun hi => ?_, fun i1 i2 s2 b2 hi hr hs2 => ?_⟩,
          fun hnsig => ?_, fun hi => ?_, fun hr => ?_, fun s2 b2 hr hs2 => ?_⟩
  · rw [tts_noTrigger_eq base iT rT reqT s body htext hs htr]
  · dsimp only at hi
    subst hi
    by_cases htr : (normalizeTTS reqT.model reqT.voice).model = "tts-1-piper" ∧
        isMissingModelSig body = true
    · rw [tts_installErr_eq base rT reqT s body htext hs htr.1 htr.2]
    · rw [tts_noTrigger_eq base .netErr rT reqT s body htext hs htr]
  · dsimp only at hi hr
    subst hi
    subst hr
    by_cases htr : (normalizeTTS reqT.model reqT.voice).model = "tts-1-piper" ∧
        isMissingModelSig body = true
    · rw [tts_retryFail_eq base i1 i2 reqT s s2 body b2 htext hs hs2 htr.1 htr.2]
    · rw [tts_noTrigger_eq base (.response i1 i2) (.response s2 b2) reqT s body htext hs htr]
  · rw [stt_noSig_eq decode base iS rS lng ltier file s body hs hnsig]
  · dsimp only at hi
    subst hi
    by_cases hsig : isMissingModelSig body = true
    · rw [stt_installErr_eq decode base rS lng ltier file s body hs hsig]
    · rw [stt_noSig_eq decode base .netErr rS lng ltier file s body hs hsig]
  · dsimp only at hr
    subst hr
    by_cases hsig : isMissingModelSig body = true
    · cases iS with
      | netErr => rw [stt_installErr_eq decode base .netErr lng ltier file s body hs hsig]
      | response i1 i2 =>
          rw [stt_retryNetErr_eq decode base i1 i2 lng ltier file s body hs hsig]
    · rw [stt_noSig_eq decode base iS .netErr lng ltier file s body hs hsig]
  · dsimp only at hr
    subst hr
    by_cases hsig : isMissingModelSig body = true
    · cases iS with
      | netErr =>
          rw [stt_installErr_eq decode base (.response s2 b2) lng ltier file s body hs hsig]
      | response i1 i2 =>
          rw [stt_retryFail_eq decode base i1 i2 lng ltier file s s2 body b2 hs hs2 hsig]
    · rw [stt_noSig_eq decode base iS (.response s2 b2) lng ltier file s body hs hsig]

/-- C9 witness: instance where a 418 response with a non-matching body is
delivered with its status and body carried in the error message. -/
theorem C9_witness :
    (handleTTSGateway "http://localhost:8000"
        ⟨.response 418 "teapot", .netErr, .netErr⟩
        ⟨"hi", "af_nova", "tts-1"⟩).result =
      .jsonError 418 (backendErrMsg "teapot") :=
  ((C9_amended (fun _ => none) "http://localhost:8000"
      ⟨.response 418 "teapot", .netErr, .netErr⟩
      ⟨.response 418 "teapot", .netErr, .netErr⟩
      ⟨"hi", "af_nova", "tts-1"⟩ none none ⟨"f", "d"⟩ 418 "teapot"
      (by decide) rfl rfl (by decide)).1).1 (by decide)

/-- C8: counterexample.  The claim says every decode failure of a 200
response body fails with MalformedBackendResponse; but on the retry path
the decode error is ignored: with a 200 retry whose body does not decode,
the caller receives a 200 success with the empty transcript instead of an
error. -/
theorem C8_counterexample :
    (handleSTTGateway (fun _ => none) "http://localhost:8000"
       ⟨.response 404 "Model whisper-1 not found", .response 200 "ok",
        .response 200 "garbage"⟩
       ⟨some "en", some "standard", some ⟨"a.wav", "DATA"⟩⟩).result =
      .jsonText 200 "" := by
  decide

/-- C8 (amended): when the first transcription attempt returns HTTP 200 the
gateway decodes the body and returns exactly the transcript field, and a
decode failure there fails with the 500 MalformedBackendResponse error;
when the retry returns HTTP 200 the decode error is ignored and the caller
receives a 200 success carrying the decoded transcript, or the empty string
when the decode fails. -/
theorem C8_amended (decode : String → Option String) (base : String)
    (b : STTBackend) (lng ltier : Option String) (file : STTFile)
    (rbody t : String) (hfirst : b.first = .response 200 rbody) :
    (decode rbody = some t →
       (handleSTTGateway decode base b ⟨lng, ltier, some file⟩).result =
         .jsonText 200 t) ∧
    (decode rbody = none →
       (handleSTTGateway decode base b ⟨lng, ltier, some file⟩).result =
         .jsonError 500 "failed to decode transcription response") ∧
    (∀ (b2 : STTBackend) (s : Nat) (rb rb2 : String) (i1 : Nat) (i2 : String),
       b2.first = .response s rb → ¬ s = 200 → isMissingModelSig rb = true →
       b2.install = .response i1 i2 → b2.retry = .response 200 rb2 →
       (handleSTTGateway decode base b2 ⟨lng, ltier, some file⟩).result =
         .jsonText 200 ((decode rb2).getD "")) := by
  obtain ⟨f, i, r⟩ := b
  dsimp only at hfirst
  subst hfirst
  refine ⟨fun hdec => ?_, fun hdec => ?_,
          fun b2 s rb rb2 i1 i2 h1 h2 h3 h4 h5 => ?_⟩
  · rw [stt_first_ok_some_eq decode base i r lng ltier file rbody t hdec]
  · rw [stt_first_ok_none_eq decode base i r lng ltier file rbody hdec]
  · obtain ⟨f2, ii, rr⟩ := b2
    dsimp only at h1 h4 h5
    subst h1
    subst h4
    subst h5
    rw [stt_retryOk_eq decode base i1 i2 lng ltier file s rb rb2 h2 h3]

/-- C8 witness: instance where the first attempt returns 200 and the body
decodes to the transcript "hi". -/
theorem C8_witness :
    (handleSTTGateway (fun _ => some "hi") "http://localhost:8000"
        ⟨.response 200 "G", .netErr, .netErr⟩
        ⟨none, none, some ⟨"a.wav", "D"⟩⟩).result =
      .jsonText 200 "hi" :=
  (C8_amended (fun _ => some "hi") "http://localhost:8000"
     ⟨.response 200 "G", .netErr, .netErr⟩ none none ⟨"a.wav", "D"⟩
     "G" "hi" rfl).1 rfl

end SpeachesUI
